import Mathlib

/-!
Verification development for the BD_AGRO_INTERSECT pipeline.

The Python source is shallowly embedded: pandas/geopandas column operations
become explicit list transformations over row structures, floating-point
areas become exact rationals (the claims under study only involve sums of
dyadic values, where binary floating point is exact), and library calls
(shapely `make_valid`, GEOS `buffer(0)`, `utm.from_latlon`) are embedded by
their documented contracts, noted at each definition.

Sections follow the source files:
  * `source/helpers/gisFunctions.py`                     — geometry repair, reprojection, area
  * `source/modules/intersectNdvi/intersectNdviData.py`  — classification + validation
  * `source/modules/intersectNdvi/insertNdviDataIntoDatabase.py` — aggregation + loader
-/

namespace BdAgro

/-! ## Geometry model (gisFunctions.py, type/validity level)

`MakeValidGeometries` only inspects `geom_type`, `is_empty`, `is_valid` and
rebuilds geometries through `make_valid` and `buffer(0)`, so geometries are
modelled at that level of detail.  A `GeometryCollection` carries the list of
its members' geometry types (its decomposition only reads those types). -/

inductive GeomType where
  | point
  | lineString
  | polygon
  | multiPolygon
  | geometryCollection
deriving DecidableEq, Repr

inductive Geom where
  | point (valid : Bool) (empty : Bool)
  | lineString (valid : Bool) (empty : Bool)
  | polygon (valid : Bool) (empty : Bool)
  | multiPolygon (valid : Bool) (empty : Bool)
  | collection (partTypes : List GeomType) (valid : Bool) (empty : Bool)
deriving DecidableEq, Repr, Inhabited

def Geom.geomType : Geom → GeomType
  | .point _ _ => .point
  | .lineString _ _ => .lineString
  | .polygon _ _ => .polygon
  | .multiPolygon _ _ => .multiPolygon
  | .collection _ _ _ => .geometryCollection

def Geom.is_valid : Geom → Bool
  | .point v _ => v
  | .lineString v _ => v
  | .polygon v _ => v
  | .multiPolygon v _ => v
  | .collection _ v _ => v

def Geom.is_empty : Geom → Bool
  | .point _ e => e
  | .lineString _ e => e
  | .polygon _ e => e
  | .multiPolygon _ e => e
  | .collection _ _ e => e

/-- GEOS zero-distance buffer, by contract: the result is always a *valid*
polygonal geometry (`Polygon` or `MultiPolygon`); buffering a point, line or
collection yields the (possibly empty) polygonal area of the input. -/
def Geom.buffer0 : Geom → Geom
  | .polygon _ e => .polygon true e
  | .multiPolygon _ e => .multiPolygon true e
  | .point _ _ => .polygon true true
  | .lineString _ _ => .polygon true true
  | .collection _ _ e => .polygon true e

/-- shapely `make_valid`, by contract: the result is valid but its type may
change — repairing an invalid polygon can return a `GeometryCollection`
containing line artifacts.  Modelled as that worst case, so that only the
later unconditional `buffer(0)` can restore polygonal types. -/
def Geom.make_valid (g : Geom) : Geom :=
  if g.is_valid then g
  else .collection [.polygon, .lineString] true g.is_empty

/-- A geopandas `GeoDataFrame` at geometry level: one collection CRS plus the
geometry column. -/
structure GeoDataFrame where
  crs : Int
  geoms : List Geom
deriving DecidableEq, Repr

/-- `MakeValidGeometries.__init__`: keep only non-empty geometries whose type
is in `['Polygon', 'MultiPolygon', 'GeometryCollection']`. -/
def geoM_type_list : List GeomType :=
  [.polygon, .multiPolygon, .geometryCollection]

def makeValidGeometries_filter (gdf : GeoDataFrame) : GeoDataFrame :=
  { gdf with
    geoms := gdf.geoms.filter
      (fun g => (!g.is_empty) && geoM_type_list.contains g.geomType) }

/-- `ImproveGeometryCollections.geometry_collection_to_multipolygon`: drop the
`LineString` members, explode the rest to single polygons, dissolve them into
one geometry and apply `.buffer(0)` to the result. -/
def geometry_collection_to_multipolygon (partTypes : List GeomType) (e : Bool) : Geom :=
  let kept := partTypes.filter (fun t => t ≠ GeomType.lineString)
  Geom.buffer0 (.multiPolygon true (e || kept.isEmpty))

/-- `MakeValidGeometries.__improve_geometry_collection`: rewrite every
`GeometryCollection` row through the decomposition above. -/
def improve_geometry_collection (gdf : GeoDataFrame) : GeoDataFrame :=
  { gdf with
    geoms := gdf.geoms.map (fun g =>
      match g with
      | .collection parts _ e => geometry_collection_to_multipolygon parts e
      | other => other) }

/-- `MakeValidGeometries.__make_valid`: repair each invalid row with
`make_valid` (the source's `except` fallback assigns `buffer(0)` instead; both
are crushed by the next step, which the model keeps explicit), then apply
`buffer(0)` to *every* geometry, then reproject the frame to EPSG:4326
(a coordinate transform, which leaves geometry types and validity intact). -/
def make_valid_pass (gdf : GeoDataFrame) : GeoDataFrame :=
  let repaired := gdf.geoms.map (fun g => if g.is_valid then g else g.make_valid)
  { crs := 4326, geoms := repaired.map Geom.buffer0 }

/-- `MakeValidGeometries(gdf).improve_geometry()` end to end. -/
def makeValidGeometries_improve_geometry (gdf : GeoDataFrame) : GeoDataFrame :=
  make_valid_pass (improve_geometry_collection (makeValidGeometries_filter gdf))

/-! ## Aggregator model (insertNdviDataIntoDatabase.py, `IntersectNdviSummarized`)

Rows at the summarize stage, after `__format_columns` lower-cased the column
names and copied `ESTAGIO_D` into `estagio`.  `safra` and `gridcode` are kept
as integers (the source stores them as strings cast from `self.safra : int`
and the int64 `GRIDCODE`; every `astype(str)` becomes `toString`, every
`astype(int)` on such a canonical value is the identity).  `area_ndvi` is a
rational: the claims only concern sums, and the example values are dyadic, so
binary floating point computes them exactly. -/

structure NdviRow where
  chave : String
  safra : Int
  fazenda : String
  gridcode : Int
  estagio : String
  tp_prop : String
  variedade : String
  jan_col : String
  janela : String
  area_ndvi : ℚ
  data_img : String
deriving DecidableEq, Repr

/-- `IntersectNdviSummarized.__create_chave_column`: the phase-1 key. -/
def create_chave_column (rows : List NdviRow) : List NdviRow :=
  rows.map (fun r =>
    { r with
      chave := r.fazenda ++ "_" ++ toString r.gridcode ++ "_" ++ r.estagio ++ "_" ++
        r.tp_prop ++ "_" ++ r.variedade ++ "_" ++ r.jan_col ++ "_" ++
        toString r.safra ++ "_" ++ r.janela })

/-- `IntersectNdviSummarized.__groupby_intersect_ndvi_data_by_chave`:
`groupby(['chave'])` taking `first` of every attribute and `sum` of
`area_ndvi`.  One output row per distinct key; groups are never empty, so the
`[]` arm of the match is dead (pandas sorts the group keys while this model
keeps first-occurrence order; no claim concerns row order). -/
def groupby_chave (rows : List NdviRow) : List NdviRow :=
  ((rows.map (·.chave)).dedup).filterMap (fun k =>
    match rows.filter (fun r => r.chave = k) with
    | [] => none
    | g0 :: gs => some { g0 with area_ndvi := ((g0 :: gs).map (·.area_ndvi)).sum })

/-- The warehouse-facing schema after phase 2: `groupby(list_columns,
as_index=False).agg(area_ndvi sum)` keeps exactly the 8 grouped columns plus
the summed area (`fazenda` and `variedade` are dropped). -/
structure Phase2Row where
  chave : String
  safra : Int
  janela : String
  estagio : String
  jan_col : String
  gridcode : Int
  tp_prop : String
  data_img : String
  area_ndvi : ℚ
deriving DecidableEq, Repr

/-- `IntersectNdviSummarized.__create_chave_final_column`: rebuild `chave`
prefixed by the client id from six attributes. -/
def create_chave_final_column (client_id : Int) (rows : List NdviRow) : List NdviRow :=
  rows.map (fun r =>
    { r with
      chave := toString client_id ++ "_" ++ toString r.safra ++ "_" ++ r.janela ++ "_" ++
        r.estagio ++ "_" ++ r.jan_col ++ "_" ++ toString r.gridcode })

/-- The value tuple of the 8-column grouping list of `__groupby_data_final`:
`['chave', 'safra', 'janela', 'estagio', 'jan_col', 'gridcode', 'tp_prop',
'data_img']`. -/
structure Key8 where
  chave : String
  safra : Int
  janela : String
  estagio : String
  jan_col : String
  gridcode : Int
  tp_prop : String
  data_img : String
deriving DecidableEq, Repr

def key8 (r : NdviRow) : Key8 :=
  { chave := r.chave, safra := r.safra, janela := r.janela, estagio := r.estagio,
    jan_col := r.jan_col, gridcode := r.gridcode, tp_prop := r.tp_prop,
    data_img := r.data_img }

/-- The 8 grouped fields read off an output row of phase 2. -/
def phase2_key (p : Phase2Row) : Key8 :=
  { chave := p.chave, safra := p.safra, janela := p.janela, estagio := p.estagio,
    jan_col := p.jan_col, gridcode := p.gridcode, tp_prop := p.tp_prop,
    data_img := p.data_img }

/-- `IntersectNdviSummarized.__groupby_data_final`: rebuild the final key, then
group by the 8-column list summing `area_ndvi` (`as_index=False` keeps exactly
the grouped columns plus the aggregate). -/
def groupby_data_final (client_id : Int) (rows0 : List NdviRow) : List Phase2Row :=
  let rows := create_chave_final_column client_id rows0
  ((rows.map key8).dedup).map (fun k =>
    { chave := k.chave, safra := k.safra, janela := k.janela, estagio := k.estagio,
      jan_col := k.jan_col, gridcode := k.gridcode, tp_prop := k.tp_prop,
      data_img := k.data_img,
      area_ndvi := ((rows.filter (fun r => key8 r = k)).map (·.area_ndvi)).sum })

/-- The spec's worked example: three polygons with NDVI areas `[2.0, 3.0, 1.5]`
sharing the phase-1 attributes behind the key
`FAZ1_10_1ºC_PRÓPRIAS_VAR1_INÍCIO_2025_J1`. -/
def c2_example_rows : List NdviRow :=
  [ { chave := "", safra := 2025, fazenda := "FAZ1", gridcode := 10, estagio := "1ºC",
      tp_prop := "PRÓPRIAS", variedade := "VAR1", jan_col := "INÍCIO", janela := "J1",
      area_ndvi := 2, data_img := "2025-01-05" },
    { chave := "", safra := 2025, fazenda := "FAZ1", gridcode := 10, estagio := "1ºC",
      tp_prop := "PRÓPRIAS", variedade := "VAR1", jan_col := "INÍCIO", janela := "J1",
      area_ndvi := 3, data_img := "2025-01-05" },
    { chave := "", safra := 2025, fazenda := "FAZ1", gridcode := 10, estagio := "1ºC",
      tp_prop := "PRÓPRIAS", variedade := "VAR1", jan_col := "INÍCIO", janela := "J1",
      area_ndvi := 3/2, data_img := "2025-01-05" } ]

end BdAgro

namespace BdAgro

/-! ## Classification model (intersectNdviData.py)

Rows at the classification stage, after `__format_columns` upper-cased the
column names.  `ESTAGIO` is a pandas `string` column whose missing values are
`Option.none`; `dt_ult_cor_month` is the month `pd.to_datetime` reads off
`DT_ULT_COR` (`none` when the date fails to parse and becomes `NaT`, in which
case `.dt.month.fillna(0)` yields 0). -/

structure ClassifiedRow where
  estagio : Option String
  estagio_d : String
  tp_prop : String
  gridcode : Int
  jan_col : String
  desc_cana : String
  dt_ult_cor_month : Option Int
  idade_img : Int
  data_img : String
  area_ndvi : ℚ
deriving DecidableEq, Repr

/-- Remove every occurrence of one character, as the single-character
`Series.str.replace(c, '')` calls do. -/
def remove_char (c : Char) (s : String) : String :=
  String.mk (s.toList.filter (fun a => a ≠ c))

/-- `IntersectNdvi.__create_estagio_column` value normalization: strip the
stray `Â` characters, then all spaces. -/
def create_estagio_strip (s : String) : String :=
  remove_char ' ' (remove_char 'Â' s)

/-- Python `s[-n:]`: the last at-most-`n` characters. -/
def str_suffix (n : Nat) (s : String) : String :=
  String.mk (s.toList.drop (s.toList.length - n))

/-- Python `s[:1]` / pandas `.str[0]` compared against a one-character string:
the first at-most-1 characters (missing and empty values never compare equal
to a real character either way). -/
def str_first (s : String) : String :=
  String.mk (s.toList.take 1)

/-- pandas `Series.isin` on a possibly missing string value. -/
def opt_isin (e : Option String) (l : List String) : Bool :=
  match e with
  | none => false
  | some s => l.contains s

/-! The rule lists of `ImproveEstagios.__init__`. -/

def rules_1c : List String :=
  ["9M", "10M", "11M", "12M", "13M", "14M", "15M", "16M", "17M", "18M", "2VER"]

def rules_2c : List String := ["2ºC", "2°C", "2º", "2°", "2º CORTE", "2° CORTE"]

def rules_3c : List String := ["3ºC", "3°C", "3º", "3°", "3º CORTE", "3° CORTE"]

def rules_4c : List String := ["4ºC", "4°C", "4º", "4°", "4º CORTE", "4° CORTE"]

/-- `ImproveEstagios.__create_5c_list_values`: cut numbers 5–30 across the
eight textual variants, in the source's append order. -/
def rules_5c : List String :=
  let nums := (List.range 26).map (fun i => toString (i + 5))
  (nums.map (fun n => n ++ "ºC")) ++ (nums.map (fun n => n ++ "°C")) ++
  (nums.map (fun n => n ++ "º")) ++ (nums.map (fun n => n ++ "°")) ++
  (nums.map (fun n => n ++ "ºCORTE")) ++ (nums.map (fun n => n ++ "°CORTE")) ++
  (nums.map (fun n => n ++ "ºC+")) ++ (nums.map (fun n => n ++ "°C+"))

def rules_plantio : List String := ["12MF", "15MF", "18MF", "9MF"]

def rules_adef : List String := ["", "EXP", "POU", "POUSIO", "ADEF"]

def rules_bis : List String := ["BIS", "BISADA", "BISANOEMEIO", "SOQUEIRA", "SOQ"]

/-- `ImproveEstagios.format_estagios` restricted to one row: `ESTAGIO_D`
starts as `''` and the `.loc` assignments of `__classify_adef_ref_plantio`,
`__classify_bis` and `__classify_cortes` run in source order, each overwriting
the previous value where its row condition holds (every condition is
row-local). -/
def format_estagios_row (e : Option String) : String :=
  let d0 := ""
  let d1 := if opt_isin e rules_adef || e.isNone then "ADEF" else d0
  let d2 := if opt_isin e rules_plantio then "PLANTIO" else d1
  let d3 := if e = some "REF" then "REF" else d2
  let d4 := if (match e with
      | some s => (str_suffix 1 s = "B") || (str_suffix 3 s = "BIS")
      | none => false) || opt_isin e rules_bis then "BIS" else d3
  let d5 := if opt_isin e rules_1c then "1ºC" else d4
  let d6 := if opt_isin e rules_2c then "2ºC" else d5
  let d7 := if opt_isin e rules_3c then "3ºC" else d6
  let d8 := if opt_isin e rules_4c then "4ºC" else d7
  if opt_isin e rules_5c || (match e with
      | some s => str_first s = ">"
      | none => false) then "5ºC+" else d8

/-- The estagio path of the pipeline for one row with a present `ESTAGIO`
value: `__create_estagio_column` strips `Â` and spaces, then
`ImproveEstagios` derives `ESTAGIO_D`. -/
def pipeline_estagio_d (raw : String) : String :=
  format_estagios_row (some (create_estagio_strip raw))

/-- `JanelaDeColheita.__classificar_estagio` on one row: `JAN_COL` starts as
`''`, then the four explicit `ESTAGIO` matches assign in source order. -/
def classificar_estagio (e : Option String) : String :=
  let j0 := ""
  let j1 := if e = some "12M" then "TARDIA" else j0
  let j2 := if e = some "15M" then "MÉDIA" else j1
  let j3 := if e = some "18M" then "INÍCIO" else j2
  if e = some "2VER" then "INÍCIO" else j3

/-- `JanelaDeColheita.__classificar_cana_bis` on one row: `DESC_CANA` equal to
`BIS`/`BISADA` overrides to `INÍCIO`. -/
def classificar_cana_bis (desc_cana j : String) : String :=
  if desc_cana = "BIS" ∨ desc_cana = "BISADA" then "INÍCIO" else j

/-- `JanelaDeColheita.__create_mes_corte_column` on one row: the month of
`DT_ULT_COR` (`fillna(0)` turns an unparseable date into 0), then forced to 0
where `JAN_COL` is already non-empty. -/
def mes_corte_of (j : String) (mo : Option Int) : Int :=
  if j.length > 0 then 0
  else
    match mo with
    | none => 0
    | some m => m

/-- `JanelaDeColheita.__classificar_mes_corte` on one row: bucket the cut
month for still-unclassified rows. -/
def classificar_mes_corte (m : Int) (j : String) : String :=
  let j1 := if j = "" ∧ m ∈ ([1, 2, 3, 4, 5, 6] : List Int) then "INÍCIO" else j
  let j2 := if j1 = "" ∧ m ∈ ([7, 8] : List Int) then "MÉDIA" else j1
  if j2 = "" ∧ m ∈ ([9, 10, 11, 12] : List Int) then "TARDIA" else j2

/-- `JanelaDeColheita.__classificar_idade_img` on one row: bucket the image
age for still-unclassified rows with cut month 0. -/
def classificar_idade_img (m idade : Int) (j : String) : String :=
  let j1 := if j = "" ∧ m = 0 ∧ idade > 10 then "INÍCIO" else j
  let j2 := if j1 = "" ∧ m = 0 ∧ idade ∈ ([8, 9, 10] : List Int) then "MÉDIA" else j1
  if j2 = "" ∧ m = 0 ∧ idade ≤ 7 then "TARDIA" else j2

/-- `JanelaDeColheita` on one row, `JAN_COL`-generating path (the column is
absent upstream): the four steps in source order (every `.loc` condition is
row-local).  `__format_gridcode` (int → str → int64) is the identity on the
integer `gridcode`. -/
def classify_janela_row (r : ClassifiedRow) : ClassifiedRow :=
  let j5 := classificar_cana_bis r.desc_cana (classificar_estagio r.estagio)
  let m := mes_corte_of j5 r.dt_ult_cor_month
  let j8 := classificar_mes_corte m j5
  { r with jan_col := classificar_idade_img m r.idade_img j8 }

/-- `JanelaDeColheita.classify_janela_colheita` over the collection, on the
generating path. -/
def classify_janela_colheita (rows : List ClassifiedRow) : List ClassifiedRow :=
  rows.map classify_janela_row

/-- `groupby('DATA_IMG')['AREA_NDVI'].sum()` read at one date. -/
def sum_area_for_date (rows : List ClassifiedRow) (d : String) : ℚ :=
  ((rows.filter (fun r => r.data_img = d)).map (·.area_ndvi)).sum

/-- `grouped.idxmax()`: the date whose summed NDVI area is maximal (pandas
breaks ties by the first date in grouped order; this model keeps the first
occurrence, and no claim concerns tie-breaking).  The source raises on an
empty frame, so the `[]` arm is dead. -/
def date_with_highest_sum_area (rows : List ClassifiedRow) : String :=
  match (rows.map (·.data_img)).dedup with
  | [] => ""
  | d :: ds => ds.foldl (fun best d2 =>
      if sum_area_for_date rows best < sum_area_for_date rows d2 then d2 else best) d

/-- `IntersectNdvi.__classify_date_image`: overwrite every row's `DATA_IMG`
with the collection-wide best date. -/
def classify_date_image (rows : List ClassifiedRow) : List ClassifiedRow :=
  rows.map (fun r => { r with data_img := date_with_highest_sum_area rows })

/-! ## Validation model (`NdviDataValidation`) -/

def estagios_values : List String :=
  ["1ºC", "2ºC", "3ºC", "4ºC", "5ºC+", "BIS", "ADEF", "REF", "PLANTIO"]

def gridcode_values : List Int := [1, 2, 3, 4, 5, 6]

def contratos_values : List String := ["PRÓPRIAS", "FORNECEDORES", "ADEF"]

/-- The `ValueError`s of `NdviDataValidation`, carrying the offending distinct
values the message reports. -/
inductive ValidationError where
  | estagios (wrong : List String)
  | gridcode (wrong : List Int)
  | contratos (wrong : List String)
deriving DecidableEq, Repr

/-- `NdviDataValidation.__estagios_validation`: raise iff some row's
`ESTAGIO_D` is outside the nine-member enumeration; the error carries the
offending distinct values (pandas `drop_duplicates` keeps first occurrences,
`dedup` keeps last; the claims only concern the set of values). -/
def estagios_validation (rows : List ClassifiedRow) : Except ValidationError Unit :=
  let bad := rows.filter (fun r => r.estagio_d ∉ estagios_values)
  if bad.isEmpty then Except.ok ()
  else Except.error (ValidationError.estagios ((bad.map (·.estagio_d)).dedup))

/-- `NdviDataValidation.__gridcode_validation`. -/
def gridcode_validation (rows : List ClassifiedRow) : Except ValidationError Unit :=
  let bad := rows.filter (fun r => r.gridcode ∉ gridcode_values)
  if bad.isEmpty then Except.ok ()
  else Except.error (ValidationError.gridcode ((bad.map (·.gridcode)).dedup))

/-- `NdviDataValidation.__contratos_validation`. -/
def contratos_validation (rows : List ClassifiedRow) : Except ValidationError Unit :=
  let bad := rows.filter (fun r => r.tp_prop ∉ contratos_values)
  if bad.isEmpty then Except.ok ()
  else Except.error (ValidationError.contratos ((bad.map (·.tp_prop)).dedup))

/-- `NdviDataValidation.__validation`: the three checks in source order
(estagios, gridcode, contratos); the first failing one raises. -/
def ndvi_data_validation (rows : List ClassifiedRow) : Except ValidationError Unit :=
  match estagios_validation rows with
  | Except.error e => Except.error e
  | Except.ok _ =>
    match gridcode_validation rows with
    | Except.error e => Except.error e
    | Except.ok _ => contratos_validation rows

/-- `IntersectNdvi.ndvi_data`'s tail: run `NdviDataValidation` and, when no
check raised, return the classified rows themselves (validation never filters
or modifies the collection). -/
def validate_and_return (rows : List ClassifiedRow) :
    Except ValidationError (List ClassifiedRow) :=
  match ndvi_data_validation rows with
  | Except.error e => Except.error e
  | Except.ok _ => Except.ok rows

/-- A fully classified row whose `JAN_COL` is empty while `ESTAGIO_D`,
`TP_PROP` and `GRIDCODE` are all members of their enumerations. -/
def empty_jan_col_row : ClassifiedRow :=
  { estagio := some "12MF", estagio_d := "PLANTIO", tp_prop := "PRÓPRIAS", gridcode := 1,
    jan_col := "", desc_cana := "OUTRA", dt_ult_cor_month := none, idade_img := 9,
    data_img := "2025-01-05", area_ndvi := 2 }

/-- A concrete unclassifiable-by-steps-a-to-c row used to witness C9. -/
def c9_sample_row : ClassifiedRow :=
  { estagio := some "SEMREGRA", estagio_d := "ADEF", tp_prop := "PRÓPRIAS", gridcode := 2,
    jan_col := "", desc_cana := "OUTRA", dt_ult_cor_month := none, idade_img := 9,
    data_img := "2025-01-05", area_ndvi := 1 }

/-- Two concrete classified rows over two image dates used to witness C3. -/
def c3_sample_rows : List ClassifiedRow :=
  [ { estagio := some "12M", estagio_d := "1ºC", tp_prop := "PRÓPRIAS", gridcode := 3,
      jan_col := "TARDIA", desc_cana := "OUTRA", dt_ult_cor_month := some 3, idade_img := 12,
      data_img := "2025-01-05", area_ndvi := 2 },
    { estagio := some "15M", estagio_d := "1ºC", tp_prop := "PRÓPRIAS", gridcode := 3,
      jan_col := "MÉDIA", desc_cana := "OUTRA", dt_ult_cor_month := some 4, idade_img := 12,
      data_img := "2025-02-01", area_ndvi := 5 } ]

/-! ## Coordinate-level model (gisFunctions.py `ReprojectGeometries`, `Area`)

At this level a feature carries its centroid (the coordinates
`row.geometry.centroid` yields on the frame `iterrows` snapshots), the EPSG
code its geometry coordinates are currently expressed in, and its geometric
area in those coordinates.  `to_crs` re-expresses *every* feature of the
frame in the new CRS: the model records the new code on each feature and
forgets the numeric area (a transform rescales it); the claims below only
read areas no transform has touched. -/

structure CFeature where
  centroidLat : ℚ
  centroidLon : ℚ
  geomCrs : Int
  area : Option ℚ
  areaCalc : Option ℚ
deriving DecidableEq, Repr

structure UtmState where
  crs : Int
  feats : List CFeature
deriving DecidableEq, Repr

/-- `utm.from_latlon`'s zone number (`utm.latlon_to_zone_number`), including
its Norway and Svalbard special cases; Python's `int()` truncation equals the
floor for in-range longitudes (`longitude + 180 ≥ 0`). -/
def utm_zone_number (lat lon : ℚ) : Int :=
  if 56 ≤ lat ∧ lat < 64 ∧ 3 ≤ lon ∧ lon < 12 then 32
  else if 72 ≤ lat ∧ lat ≤ 84 ∧ 0 ≤ lon ∧ lon < 42 then
    (if lon < 9 then 31 else if lon < 21 then 33 else if lon < 33 then 35 else 37)
  else ⌊(lon + 180) / 6⌋ + 1

/-- `GeoDataFrame.to_crs(epsg)` on the success path: the whole frame is
re-expressed in `epsg`. -/
def gdf_to_crs (epsg : Int) (st : UtmState) : UtmState :=
  { crs := epsg,
    feats := st.feats.map (fun f => { f with geomCrs := epsg, area := none }) }

/-- One iteration of the `__reproject_to_utm` loop: a row with `c.y < 0`
triggers `self.geodataframe.to_crs(epsg=32700 + band)` on the *entire current
frame*; any other row leaves it alone. -/
def utm_step (acc : UtmState) (f : CFeature) : UtmState :=
  if f.centroidLat < 0 then
    gdf_to_crs (32700 + utm_zone_number f.centroidLat f.centroidLon) acc
  else acc

/-- `ReprojectGeometries.__reproject_to_utm`: iterate over the *original*
rows (`iterrows` creates its iterator before the loop body reassigns
`self.geodataframe`, so every centroid is read from the original frame),
applying `utm_step` to the evolving frame.  The `except` fallback (relabel
the CRS tag without transforming) is not modelled; the claims concern the
success path. -/
def reproject_to_utm (st : UtmState) : UtmState :=
  st.feats.foldl utm_step st

/-- `ReprojectGeometries.__reproject` with an explicit EPSG code, success
path. -/
def reproject_explicit (epsg : Int) (st : UtmState) : UtmState :=
  gdf_to_crs epsg st

/-- The last row of the frame whose centroid lies in the southern hemisphere:
its zone decides the CRS the loop leaves behind. -/
def last_southern (feats : List CFeature) : Option CFeature :=
  feats.reverse.find? (fun f => f.centroidLat < 0)

/-- Python `round(x, 7)` on the exact rational value (float `round` is
half-even at ties; no claim depends on tie behaviour). -/
def round7 (q : ℚ) : ℚ :=
  (round (q * 10000000) : ℤ) / 10000000

/-- `Area(gdf).calculate_area()` at coordinate level: the constructor
reprojects to local UTM, the area column receives `geometry.area / 10000`
rounded to 7 decimals, and the frame then goes through
`MakeValidGeometries.improve_geometry`, whose only coordinate-level effect is
its final reprojection of the frame to EPSG:4326 (its row filtering and
`buffer(0)` act on geometry types and validity, modelled separately on
`Geom`, and leave attribute columns alone). -/
def area_calculate_area (st : UtmState) : UtmState :=
  let st1 := reproject_to_utm st
  let st2 := { st1 with
    feats := st1.feats.map (fun f =>
      { f with areaCalc := f.area.map (fun a => round7 (a / 10000)) }) }
  reproject_explicit 4326 st2

/-- A mixed-hemisphere frame: one northern-centroid feature, then one
southern-centroid feature, both starting in EPSG:4326. -/
def c7_mixed_state : UtmState :=
  { crs := 4326,
    feats := [
      { centroidLat := 10, centroidLon := 0, geomCrs := 4326, area := some 5,
        areaCalc := none },
      { centroidLat := -10, centroidLon := 0, geomCrs := 4326, area := some 5,
        areaCalc := none } ] }

/-- An all-northern frame in a projected native CRS (EPSG:31983). -/
def c10_native_state : UtmState :=
  { crs := 31983,
    feats := [
      { centroidLat := 10, centroidLon := 0, geomCrs := 31983, area := some 50000,
        areaCalc := none } ] }

/-! ## Loader model (insertNdviDataIntoDatabase.py,
`InsertIntersectNdviIntoDatabase`)

The warehouse table `powerbi.intersect_ndvi` as a row list in insertion
order. -/

structure DbRow where
  client_id : Int
  client_name : String
  chave : String
  safra : Int
  janela : String
  estagio : String
  jan_col : String
  gridcode : Int
  tp_prop : String
  data_img : String
  area_ndvi : ℚ
deriving DecidableEq, Repr

/-- `__delete_old_rows_from_database`:
`DELETE ... WHERE client_id = ... AND safra = ... AND janela = ...`. -/
def delete_old_rows (w : List DbRow) (cid safra : Int) (janela : String) :
    List DbRow :=
  w.filter (fun r => ¬(r.client_id = cid ∧ r.safra = safra ∧ r.janela = janela))

/-- `__insert_ndvi_data_into_database` for one (client, season, window) unit:
stamp `client_id`/`client_name` onto every aggregated row, delete the
matching warehouse rows, then bulk-insert the stamped rows (the `data_img`
re-parse changes neither the row count nor the delete key and is omitted
here). -/
def insert_ndvi_data_into_database (w : List DbRow) (cid : Int) (name : String)
    (safra : Int) (janela : String) (data : List DbRow) : List DbRow :=
  let stamped := data.map (fun r => { r with client_id := cid, client_name := name })
  delete_old_rows w cid safra janela ++ stamped

/-- One aggregated row for the (client 7, season 2025, window J1) unit. -/
def c8_sample_row : DbRow :=
  { client_id := 0, client_name := "", chave := "7_2025_J1_1ºC_INÍCIO_1", safra := 2025,
    janela := "J1", estagio := "1ºC", jan_col := "INÍCIO", gridcode := 1,
    tp_prop := "PRÓPRIAS", data_img := "2025-01-05", area_ndvi := 2 }

end BdAgro

namespace BdAgro

/-! ### List grouping lemmas -/

theorem sum_map_filter_add {α : Type} (p : α → Bool) (val : α → ℚ) (l : List α) :
    ((l.filter p).map val).sum + ((l.filter (fun a => !p a)).map val).sum
      = (l.map val).sum := by
  induction l with
  | nil => simp
  | cons a l ih =>
    by_cases h : p a = true
    · simp [List.filter_cons, h]
      linarith [ih]
    · simp [List.filter_cons, h]
      linarith [ih]

theorem sum_over_keys {α κ : Type} [DecidableEq κ] (key : α → κ) (val : α → ℚ) :
    ∀ (K : List κ) (rows : List α), K.Nodup → (∀ r ∈ rows, key r ∈ K) →
      (K.map (fun k => ((rows.filter (fun r => key r = k)).map val).sum)).sum
        = (rows.map val).sum := by
  intro K
  induction K with
  | nil =>
    intro rows _ hcov
    have : rows = [] := by
      cases rows with
      | nil => rfl
      | cons r l => exact absurd (hcov r (List.mem_cons_self r l)) (List.not_mem_nil _)
    simp [this]
  | cons k K ih =>
    intro rows hnd hcov
    have hk_not : k ∉ K := (List.nodup_cons.mp hnd).1
    have hndK : K.Nodup := (List.nodup_cons.mp hnd).2
    set rest := rows.filter (fun r => !(decide (key r = k))) with hrest
    have hcong : ∀ k' ∈ K,
        ((rows.filter (fun r => key r = k')).map val).sum
          = ((rest.filter (fun r => key r = k')).map val).sum := by
      intro k' hk'
      have hne : k' ≠ k := fun h => hk_not (h ▸ hk')
      have : rest.filter (fun r => key r = k') = rows.filter (fun r => key r = k') := by
        rw [hrest, List.filter_filter]
        apply List.filter_congr
        intro r _
        by_cases h : key r = k'
        · simp [h, hne]
        · simp [h]
      rw [this]
    have hcovK : ∀ r ∈ rest, key r ∈ K := by
      intro r hr
      have hr' := List.mem_filter.mp hr
      have := hcov r hr'.1
      rcases List.mem_cons.mp this with h | h
      · exfalso
        have : ¬ (key r = k) := by simpa using hr'.2
        exact this h
      · exact h
    calc
      ((k :: K).map (fun k' => ((rows.filter (fun r => key r = k')).map val).sum)).sum
          = ((rows.filter (fun r => key r = k)).map val).sum
            + (K.map (fun k' => ((rows.filter (fun r => key r = k')).map val).sum)).sum := by
            simp
      _ = ((rows.filter (fun r => key r = k)).map val).sum
            + (K.map (fun k' => ((rest.filter (fun r => key r = k')).map val).sum)).sum := by
            rw [List.map_congr_left hcong]
      _ = ((rows.filter (fun r => key r = k)).map val).sum + (rest.map val).sum := by
            rw [ih rest hndK hcovK]
      _ = (rows.map val).sum := sum_map_filter_add _ val rows

theorem sum_over_groups {α κ : Type} [DecidableEq κ] (key : α → κ) (val : α → ℚ)
    (rows : List α) :
    (((rows.map key).dedup).map
        (fun k => ((rows.filter (fun r => key r = k)).map val).sum)).sum
      = (rows.map val).sum := by
  apply sum_over_keys key val _ rows (List.nodup_dedup _)
  intro r hr
  exact List.mem_dedup.mpr (List.mem_map_of_mem key hr)

/-- Phase-1 grouping, seen as one group sum per distinct key. -/
theorem groupby_chave_map_area (rows : List NdviRow) :
    (groupby_chave rows).map (·.area_ndvi)
      = ((rows.map (·.chave)).dedup).map
          (fun k => ((rows.filter (fun r => r.chave = k)).map (·.area_ndvi)).sum) := by
  unfold groupby_chave
  have h : ∀ K : List String, (∀ k ∈ K, ∃ r ∈ rows, r.chave = k) →
      (K.filterMap (fun k =>
        match rows.filter (fun r => r.chave = k) with
        | [] => none
        | g0 :: gs =>
            some { g0 with
              area_ndvi := ((g0 :: gs).map (fun x : NdviRow => x.area_ndvi)).sum })).map
          (fun x : NdviRow => x.area_ndvi)
      = K.map (fun k =>
          ((rows.filter (fun r => r.chave = k)).map
            (fun x : NdviRow => x.area_ndvi)).sum) := by
    intro K
    induction K with
    | nil => intro _; rfl
    | cons k K ih =>
      intro hcov
      obtain ⟨r, hr, hrk⟩ := hcov k (List.mem_cons_self _ _)
      have hmem : r ∈ rows.filter (fun x => x.chave = k) :=
        List.mem_filter.mpr ⟨hr, by simp [hrk]⟩
      cases hf : rows.filter (fun x => x.chave = k) with
      | nil => rw [hf] at hmem; exact absurd hmem (List.not_mem_nil _)
      | cons g0 gs =>
        simp only [List.filterMap_cons, hf, List.map_cons]
        exact congrArg₂ List.cons rfl
          (ih (fun k' hk' => hcov k' (List.mem_cons_of_mem _ hk')))
  apply h
  intro k hk
  obtain ⟨r, hr, hrk⟩ := List.mem_map.mp (List.mem_dedup.mp hk)
  exact ⟨r, hr, hrk⟩

/-- Phase-2 grouping, seen as one group sum per distinct 8-field key. -/
theorem groupby_data_final_map_area (cid : Int) (rows0 : List NdviRow) :
    (groupby_data_final cid rows0).map (·.area_ndvi)
      = (((create_chave_final_column cid rows0).map key8).dedup).map
          (fun k => (((create_chave_final_column cid rows0).filter
              (fun r => key8 r = k)).map (·.area_ndvi)).sum) := by
  unfold groupby_data_final
  rw [List.map_map]
  rfl

/-- **C2.** Phase-1 aggregation (`__groupby_intersect_ndvi_data_by_chave`) and
phase-2 aggregation (`__groupby_data_final`) both preserve the total
`area_ndvi` of their input rows, and the spec's worked example holds: three
rows with NDVI areas 2.0, 3.0, 1.5 sharing one phase-1 key collapse to a
single row with key `FAZ1_10_1ºC_PRÓPRIAS_VAR1_INÍCIO_2025_J1` and
`area_ndvi = 6.5`. -/
theorem c2_aggregation_preserves_area_sum :
    (∀ rows : List NdviRow,
        ((groupby_chave rows).map (·.area_ndvi)).sum = (rows.map (·.area_ndvi)).sum) ∧
    (∀ (client_id : Int) (rows : List NdviRow),
        ((groupby_data_final client_id rows).map (·.area_ndvi)).sum
          = (rows.map (·.area_ndvi)).sum) ∧
    (groupby_chave (create_chave_column c2_example_rows)).map
        (fun r => (r.chave, r.area_ndvi))
      = [("FAZ1_10_1ºC_PRÓPRIAS_VAR1_INÍCIO_2025_J1", (13 : ℚ) / 2)] := by
  refine ⟨?_, ?_, ?_⟩
  · intro rows
    rw [groupby_chave_map_area]
    exact sum_over_groups (fun r => r.chave) (fun r => r.area_ndvi) rows
  · intro cid rows
    rw [groupby_data_final_map_area]
    have h1 := sum_over_groups key8 (fun r : NdviRow => r.area_ndvi)
      (create_chave_final_column cid rows)
    have h2 : ((create_chave_final_column cid rows).map
          (fun r : NdviRow => r.area_ndvi)).sum
        = (rows.map (fun r : NdviRow => r.area_ndvi)).sum := by
      simp [create_chave_final_column, List.map_map, Function.comp_def]
    exact h1.trans h2
  · have h : (groupby_chave (create_chave_column c2_example_rows)).map
        (fun r => (r.chave, r.area_ndvi))
        = [("FAZ1_10_1ºC_PRÓPRIAS_VAR1_INÍCIO_2025_J1", (2 : ℚ) + (3 + (3/2 + 0)))] := rfl
    rw [h]
    norm_num

/-- **C6.** In phase 2, every output row's `chave` is the underscore-joined
concatenation of client id, `safra`, `janela`, `estagio`, `jan_col` and
`gridcode`, while the grouping itself is over the 8 columns
`chave, safra, janela, estagio, jan_col, gridcode, tp_prop, data_img`:
each output row's `area_ndvi` is the sum over exactly the input rows agreeing
with it on all 8 fields, and there is one output row per distinct 8-tuple. -/
theorem c6_phase2_key_and_grouping (cid : Int) (rows : List NdviRow) :
    (∀ p ∈ groupby_data_final cid rows,
        p.chave = toString cid ++ "_" ++ toString p.safra ++ "_" ++ p.janela ++ "_" ++
          p.estagio ++ "_" ++ p.jan_col ++ "_" ++ toString p.gridcode) ∧
    (∀ p ∈ groupby_data_final cid rows,
        p.area_ndvi = (((create_chave_final_column cid rows).filter
            (fun r => r.chave = p.chave ∧ r.safra = p.safra ∧ r.janela = p.janela ∧
              r.estagio = p.estagio ∧ r.jan_col = p.jan_col ∧ r.gridcode = p.gridcode ∧
              r.tp_prop = p.tp_prop ∧ r.data_img = p.data_img)).map (·.area_ndvi)).sum) ∧
    ((groupby_data_final cid rows).map phase2_key).Nodup := by
  refine ⟨?_, ?_, ?_⟩
  · intro p hp
    simp only [groupby_data_final, List.mem_map] at hp
    obtain ⟨k, hk, rfl⟩ := hp
    obtain ⟨r, hr, rfl⟩ := List.mem_map.mp (List.mem_dedup.mp hk)
    simp only [create_chave_final_column, List.mem_map] at hr
    obtain ⟨r0, _, rfl⟩ := hr
    rfl
  · intro p hp
    simp only [groupby_data_final, List.mem_map] at hp
    obtain ⟨k, _, rfl⟩ := hp
    have hfeq : (create_chave_final_column cid rows).filter
          (fun r => key8 r = k)
        = (create_chave_final_column cid rows).filter
          (fun r => r.chave = k.chave ∧ r.safra = k.safra ∧ r.janela = k.janela ∧
            r.estagio = k.estagio ∧ r.jan_col = k.jan_col ∧ r.gridcode = k.gridcode ∧
            r.tp_prop = k.tp_prop ∧ r.data_img = k.data_img) := by
      apply List.filter_congr
      intro r _
      apply decide_eq_decide.mpr
      constructor
      · intro h
        rw [← h]
        exact ⟨rfl, rfl, rfl, rfl, rfl, rfl, rfl, rfl⟩
      · rintro ⟨h1, h2, h3, h4, h5, h6, h7, h8⟩
        cases k
        simp only [key8] at *
        simp [h1, h2, h3, h4, h5, h6, h7, h8]
    simpa using congrArg (fun l => (l.map (fun x : NdviRow => x.area_ndvi)).sum) hfeq
  · have : (groupby_data_final cid rows).map phase2_key
        = ((create_chave_final_column cid rows).map key8).dedup := by
      unfold groupby_data_final
      rw [List.map_map]
      exact List.map_id _
    rw [this]
    exact List.nodup_dedup _

end BdAgro

namespace BdAgro

/-- **C1.** Every geometry output by `MakeValidGeometries.improve_geometry` is
valid and of type `Polygon` or `MultiPolygon`; no `GeometryCollection` or
`LineString` survives repair. -/
theorem c1_repair_valid_polygonal (gdf : GeoDataFrame) (g : Geom)
    (hg : g ∈ (makeValidGeometries_improve_geometry gdf).geoms) :
    g.is_valid = true ∧
      (g.geomType = GeomType.polygon ∨ g.geomType = GeomType.multiPolygon) := by
  simp only [makeValidGeometries_improve_geometry, make_valid_pass,
    List.mem_map] at hg
  obtain ⟨g', _, rfl⟩ := hg
  cases g' <;> simp [Geom.buffer0, Geom.is_valid, Geom.geomType]

/-- Witness for C1 at a concrete input: one invalid polygon goes in, and the
repaired output geometry is a valid polygon. -/
theorem c1_repair_valid_polygonal_witness :
    (Geom.polygon true false).is_valid = true ∧
      ((Geom.polygon true false).geomType = GeomType.polygon ∨
        (Geom.polygon true false).geomType = GeomType.multiPolygon) :=
  c1_repair_valid_polygonal
    { crs := 4326, geoms := [Geom.polygon false false] }
    (Geom.polygon true false) (by decide)

end BdAgro

namespace BdAgro

/-! ### Argmax-by-fold lemmas for the image-date resolution -/

theorem foldl_best_mem (S : String → ℚ) :
    ∀ (ds : List String) (init : String),
      ds.foldl (fun best d2 => if S best < S d2 then d2 else best) init ∈ init :: ds := by
  intro ds
  induction ds with
  | nil => intro init; simp
  | cons d ds ih =>
    intro init
    simp only [List.foldl_cons]
    have h := ih (if S init < S d then d else init)
    rcases List.mem_cons.mp h with h1 | h1
    · rw [h1]
      by_cases hc : S init < S d
      · simp [hc]
      · simp [hc]
    · exact List.mem_cons_of_mem _ (List.mem_cons_of_mem _ h1)

theorem foldl_best_ge (S : String → ℚ) :
    ∀ (ds : List String) (init x : String), x ∈ init :: ds →
      S x ≤ S (ds.foldl (fun best d2 => if S best < S d2 then d2 else best) init) := by
  intro ds
  induction ds with
  | nil =>
    intro init x hx
    rcases List.mem_cons.mp hx with h | h
    · rw [h]; exact le_rfl
    · exact absurd h (List.not_mem_nil _)
  | cons d ds ih =>
    intro init x hx
    simp only [List.foldl_cons]
    have hle_init : S init ≤ S (if S init < S d then d else init) := by
      by_cases hc : S init < S d
      · rw [if_pos hc]; exact le_of_lt hc
      · rw [if_neg hc]
    have hle_d : S d ≤ S (if S init < S d then d else init) := by
      by_cases hc : S init < S d
      · rw [if_pos hc]
      · rw [if_neg hc]; exact le_of_not_lt hc
    have hhead : S (if S init < S d then d else init)
        ≤ S (ds.foldl (fun best d2 => if S best < S d2 then d2 else best)
              (if S init < S d then d else init)) :=
      ih _ _ (List.mem_cons_self _ _)
    rcases List.mem_cons.mp hx with h1 | h1
    · rw [h1]; exact le_trans hle_init hhead
    · rcases List.mem_cons.mp h1 with h2 | h2
      · rw [h2]; exact le_trans hle_d hhead
      · exact ih _ x (List.mem_cons_of_mem _ h2)

/-- **C3.** `__classify_date_image` overwrites `DATA_IMG` on every row with
one collection-wide value: a date occurring in the input whose total summed
`AREA_NDVI` over the whole collection is maximal among all occurring dates. -/
theorem c3_data_img_collection_wide_argmax (rows : List ClassifiedRow)
    (hne : rows ≠ []) :
    (∀ r ∈ classify_date_image rows, r.data_img = date_with_highest_sum_area rows) ∧
    date_with_highest_sum_area rows ∈ rows.map (·.data_img) ∧
    (∀ d ∈ rows.map (·.data_img),
      sum_area_for_date rows d
        ≤ sum_area_for_date rows (date_with_highest_sum_area rows)) := by
  have hd : (rows.map (·.data_img)).dedup ≠ [] := by
    intro h
    have h2 : rows.map (·.data_img) = [] := (List.dedup_eq_nil _).mp h
    exact hne (List.map_eq_nil_iff.mp h2)
  cases hdd : (rows.map (·.data_img)).dedup with
  | nil => exact absurd hdd hd
  | cons d ds =>
    have hbest : date_with_highest_sum_area rows
        = ds.foldl (fun best d2 =>
            if sum_area_for_date rows best < sum_area_for_date rows d2 then d2 else best) d := by
      simp only [date_with_highest_sum_area, hdd]
    refine ⟨?_, ?_, ?_⟩
    · intro r hr
      simp only [classify_date_image, List.mem_map] at hr
      obtain ⟨r0, _, rfl⟩ := hr
      rfl
    · rw [hbest]
      have hmem := foldl_best_mem (sum_area_for_date rows) ds d
      rw [← hdd] at hmem
      exact List.mem_dedup.mp hmem
    · intro d2 hd2
      rw [hbest]
      apply foldl_best_ge
      have h2 : d2 ∈ (rows.map (·.data_img)).dedup := List.mem_dedup.mpr hd2
      rw [hdd] at h2
      exact h2

/-- Witness for C3 at a concrete two-date collection. -/
theorem c3_data_img_collection_wide_argmax_witness :
    (∀ r ∈ classify_date_image c3_sample_rows,
        r.data_img = date_with_highest_sum_area c3_sample_rows) ∧
    date_with_highest_sum_area c3_sample_rows ∈ c3_sample_rows.map (·.data_img) ∧
    (∀ d ∈ c3_sample_rows.map (·.data_img),
      sum_area_for_date c3_sample_rows d
        ≤ sum_area_for_date c3_sample_rows (date_with_highest_sum_area c3_sample_rows)) :=
  c3_data_img_collection_wide_argmax c3_sample_rows (by decide)

end BdAgro

namespace BdAgro

/-! ### Validation lemmas -/

theorem estagios_filter_empty_iff (rows : List ClassifiedRow) :
    (rows.filter (fun r => r.estagio_d ∉ estagios_values)).isEmpty = true
      ↔ ∀ r ∈ rows, r.estagio_d ∈ estagios_values := by
  rw [List.isEmpty_iff, List.filter_eq_nil_iff]
  simp

theorem gridcode_validation_shape (rows : List ClassifiedRow) :
    gridcode_validation rows = Except.ok () ∨
    ∃ ws, gridcode_validation rows = Except.error (ValidationError.gridcode ws) := by
  unfold gridcode_validation
  by_cases h : (rows.filter (fun r => r.gridcode ∉ gridcode_values)).isEmpty = true
  · left; rw [if_pos h]
  · right; exact ⟨_, by rw [if_neg h]⟩

theorem contratos_validation_shape (rows : List ClassifiedRow) :
    contratos_validation rows = Except.ok () ∨
    ∃ ws, contratos_validation rows = Except.error (ValidationError.contratos ws) := by
  unfold contratos_validation
  by_cases h : (rows.filter (fun r => r.tp_prop ∉ contratos_values)).isEmpty = true
  · left; rw [if_pos h]
  · right; exact ⟨_, by rw [if_neg h]⟩

/-- **C4.** `NdviDataValidation` raises the `ESTAGIO_D` closed-set error when
and only when some row's `ESTAGIO_D` lies outside the nine-member
enumeration; the error carries exactly the offending distinct values, and on
success the collection is returned unchanged — no row is dropped. -/
theorem c4_estagio_closed_set_validation (rows : List ClassifiedRow) :
    ((∃ r ∈ rows, r.estagio_d ∉ estagios_values) ↔
      ∃ vs, ndvi_data_validation rows = Except.error (ValidationError.estagios vs)) ∧
    (∀ vs, ndvi_data_validation rows = Except.error (ValidationError.estagios vs) →
      vs.Nodup ∧ ∀ v, v ∈ vs ↔ v ∉ estagios_values ∧ ∃ r ∈ rows, r.estagio_d = v) ∧
    (∀ out, validate_and_return rows = Except.ok out → out = rows) := by
  have hret : ∀ out, validate_and_return rows = Except.ok out → out = rows := by
    intro out hout
    unfold validate_and_return at hout
    cases hnv : ndvi_data_validation rows with
    | error e => rw [hnv] at hout; cases hout
    | ok u => rw [hnv] at hout; injection hout with h; exact h.symm
  by_cases hemp : (rows.filter (fun r => r.estagio_d ∉ estagios_values)).isEmpty = true
  · have hok : estagios_validation rows = Except.ok () := by
      unfold estagios_validation
      rw [if_pos hemp]
    have hnoviol := (estagios_filter_empty_iff rows).mp hemp
    have hnoerr : ∀ vs,
        ndvi_data_validation rows ≠ Except.error (ValidationError.estagios vs) := by
      intro vs h
      unfold ndvi_data_validation at h
      rw [hok] at h
      rcases gridcode_validation_shape rows with hg | ⟨ws, hg⟩ <;> rw [hg] at h
      · rcases contratos_validation_shape rows with hc | ⟨ws2, hc⟩ <;> rw [hc] at h <;>
          simp at h
      · simp at h
    refine ⟨⟨?_, ?_⟩, ?_, hret⟩
    · rintro ⟨r, hr, hviol⟩
      exact absurd (hnoviol r hr) hviol
    · rintro ⟨vs, hvs⟩
      exact absurd hvs (hnoerr vs)
    · intro vs hvs
      exact absurd hvs (hnoerr vs)
  · have herr : estagios_validation rows
        = Except.error (ValidationError.estagios
            (((rows.filter (fun r => r.estagio_d ∉ estagios_values)).map
              (·.estagio_d)).dedup)) := by
      unfold estagios_validation
      rw [if_neg hemp]
    have hndvi : ndvi_data_validation rows
        = Except.error (ValidationError.estagios
            (((rows.filter (fun r => r.estagio_d ∉ estagios_values)).map
              (·.estagio_d)).dedup)) := by
      unfold ndvi_data_validation
      rw [herr]
    have hexviol : ∃ r ∈ rows, r.estagio_d ∉ estagios_values := by
      have hne : rows.filter (fun r => r.estagio_d ∉ estagios_values) ≠ [] := by
        intro h0
        apply hemp
        rw [h0]
        rfl
      obtain ⟨r, hr⟩ := List.exists_mem_of_ne_nil _ hne
      have hm := List.mem_filter.mp hr
      exact ⟨r, hm.1, by simpa using hm.2⟩
    refine ⟨⟨fun _ => ⟨_, hndvi⟩, fun _ => hexviol⟩, ?_, hret⟩
    intro vs hvs
    rw [hndvi] at hvs
    injection hvs with h1
    injection h1 with h2
    subst h2
    constructor
    · exact List.nodup_dedup _
    · intro v
      rw [List.mem_dedup, List.mem_map]
      constructor
      · rintro ⟨r, hr, rfl⟩
        have hm := List.mem_filter.mp hr
        exact ⟨by simpa using hm.2, r, hm.1, rfl⟩
      · rintro ⟨hnv, r, hr, rfl⟩
        exact ⟨r, List.mem_filter.mpr ⟨hr, by simpa using hnv⟩, rfl⟩

end BdAgro

namespace BdAgro

/-! ### Estagio classification (C5) -/

/-- **C5 counterexample.** `'2º CORTE'` (and `'2° CORTE'`) do *not* classify
to `'2ºC'`: `__create_estagio_column` strips all spaces first, producing
`'2ºCORTE'`/`'2°CORTE'`, which none of the `rules_2c` entries (which keep the
space) nor any other rule matches, so `ESTAGIO_D` stays `''`. -/
theorem c5_counterexample_corte_with_space :
    pipeline_estagio_d "2º CORTE" ≠ "2ºC" ∧ pipeline_estagio_d "2° CORTE" ≠ "2ºC" := by
  constructor <;> decide

/-- **C5 (amended).** `'2ºC'` and `'2°C'` classify to `'2ºC'`; the spaced
variants `'2º CORTE'`/`'2° CORTE'` are space-stripped to
`'2ºCORTE'`/`'2°CORTE'`, match no estagio rule, and leave `ESTAGIO_D = ''`,
a value outside the validation enumeration. -/
theorem c5_estagio_2c_classification :
    pipeline_estagio_d "2ºC" = "2ºC" ∧ pipeline_estagio_d "2°C" = "2ºC" ∧
    create_estagio_strip "2º CORTE" = "2ºCORTE" ∧ pipeline_estagio_d "2º CORTE" = "" ∧
    create_estagio_strip "2° CORTE" = "2°CORTE" ∧ pipeline_estagio_d "2° CORTE" = "" ∧
    "" ∉ estagios_values := by
  refine ⟨?_, ?_, ?_, ?_, ?_, ?_, ?_⟩ <;> decide

end BdAgro

namespace BdAgro

/-! ### Harvest-window classification (C9) -/

theorem classificar_estagio_cases (e : Option String) :
    classificar_estagio e = "" ∨ classificar_estagio e = "TARDIA" ∨
    classificar_estagio e = "MÉDIA" ∨ classificar_estagio e = "INÍCIO" := by
  unfold classificar_estagio
  split_ifs <;> simp

theorem classificar_cana_bis_cases (d j : String) :
    classificar_cana_bis d j = j ∨ classificar_cana_bis d j = "INÍCIO" := by
  unfold classificar_cana_bis
  split_ifs <;> simp

theorem mes_corte_of_range (j : String) (mo : Option Int)
    (hm : ∀ m, mo = some m → 1 ≤ m ∧ m ≤ 12) :
    mes_corte_of j mo = 0 ∨ (1 ≤ mes_corte_of j mo ∧ mes_corte_of j mo ≤ 12) := by
  unfold mes_corte_of
  split_ifs
  · left; rfl
  · cases mo with
    | none => left; rfl
    | some m => right; exact hm m rfl

theorem classificar_mes_corte_keep (m : Int) (j : String) (h : j ≠ "") :
    classificar_mes_corte m j = j := by
  unfold classificar_mes_corte
  split_ifs <;> simp_all

theorem classificar_mes_corte_zero (j : String) :
    classificar_mes_corte 0 j = j := by
  unfold classificar_mes_corte
  split_ifs <;> simp_all

theorem classificar_mes_corte_of_month (m : Int) (h1 : 1 ≤ m) (h2 : m ≤ 12) :
    classificar_mes_corte m "" = "INÍCIO" ∨ classificar_mes_corte m "" = "MÉDIA" ∨
    classificar_mes_corte m "" = "TARDIA" := by
  interval_cases m <;> decide

theorem classificar_idade_img_keep (m idade : Int) (j : String) (h : j ≠ "") :
    classificar_idade_img m idade j = j := by
  unfold classificar_idade_img
  split_ifs <;> simp_all

theorem classificar_idade_img_zero_total (idade : Int) :
    classificar_idade_img 0 idade "" = "INÍCIO" ∨
    classificar_idade_img 0 idade "" = "MÉDIA" ∨
    classificar_idade_img 0 idade "" = "TARDIA" := by
  unfold classificar_idade_img
  by_cases h10 : idade > 10
  · simp [h10]
  · by_cases h8 : idade = 8 ∨ idade = 9 ∨ idade = 10
    · simp [h10, h8]
    · have h7 : idade ≤ 7 := by omega
      simp [h10, h8, h7]

theorem classify_janela_row_total (r : ClassifiedRow)
    (hm : ∀ mo, r.dt_ult_cor_month = some mo → 1 ≤ mo ∧ mo ≤ 12) :
    (classify_janela_row r).jan_col = "INÍCIO" ∨
    (classify_janela_row r).jan_col = "MÉDIA" ∨
    (classify_janela_row r).jan_col = "TARDIA" := by
  simp only [classify_janela_row]
  have hJ5 : classificar_cana_bis r.desc_cana (classificar_estagio r.estagio) = "" ∨
      classificar_cana_bis r.desc_cana (classificar_estagio r.estagio) = "INÍCIO" ∨
      classificar_cana_bis r.desc_cana (classificar_estagio r.estagio) = "MÉDIA" ∨
      classificar_cana_bis r.desc_cana (classificar_estagio r.estagio) = "TARDIA" := by
    rcases classificar_cana_bis_cases r.desc_cana (classificar_estagio r.estagio) with h | h
    · rw [h]
      rcases classificar_estagio_cases r.estagio with h0 | h0 | h0 | h0 <;> rw [h0] <;> simp
    · rw [h]; simp
  rcases hJ5 with h5 | h5 | h5 | h5
  · rw [h5]
    rcases mes_corte_of_range "" r.dt_ult_cor_month hm with hm0 | hm12
    · rw [hm0, classificar_mes_corte_zero]
      exact classificar_idade_img_zero_total r.idade_img
    · rcases classificar_mes_corte_of_month _ hm12.1 hm12.2 with h8 | h8 | h8 <;>
        rw [h8, classificar_idade_img_keep _ _ _ (by simp)] <;> tauto
  all_goals
    rw [h5, classificar_mes_corte_keep _ _ (by simp),
      classificar_idade_img_keep _ _ _ (by simp)]
  · tauto
  · tauto
  · tauto

/-- **C9 (amended).** On the `JAN_COL`-generating path, no row leaves the four
harvest-window steps with an empty `JAN_COL`: the steps are exhaustive (cut
months 1–12 are bucketed by step c, cut month 0 by step d whose image-age
buckets cover every integer).  There is therefore nothing for validation to
catch — and `NdviDataValidation` performs no `JAN_COL` check at all (see the
counterexample). -/
theorem c9_janela_steps_exhaustive (rows : List ClassifiedRow)
    (hm : ∀ r ∈ rows, ∀ mo, r.dt_ult_cor_month = some mo → 1 ≤ mo ∧ mo ≤ 12) :
    ∀ r ∈ classify_janela_colheita rows,
      r.jan_col = "INÍCIO" ∨ r.jan_col = "MÉDIA" ∨ r.jan_col = "TARDIA" := by
  intro r hr
  simp only [classify_janela_colheita, List.mem_map] at hr
  obtain ⟨r0, hr0, rfl⟩ := hr
  exact classify_janela_row_total r0 (hm r0 hr0)

/-- Witness for C9 at a concrete row that steps a–c leave unclassified. -/
theorem c9_janela_steps_exhaustive_witness :
    (classify_janela_row c9_sample_row).jan_col = "INÍCIO" ∨
    (classify_janela_row c9_sample_row).jan_col = "MÉDIA" ∨
    (classify_janela_row c9_sample_row).jan_col = "TARDIA" :=
  c9_janela_steps_exhaustive [c9_sample_row]
    (by
      intro r hr mo hmo
      rw [List.mem_singleton] at hr
      subst hr
      simp [c9_sample_row] at hmo)
    (classify_janela_row c9_sample_row)
    (by simp [classify_janela_colheita])

/-- **C9 counterexample.** A row with an empty `JAN_COL` and valid
`ESTAGIO_D`, `TP_PROP`, `GRIDCODE` sails through `NdviDataValidation` with no
error: validation performs no `JAN_COL` check, contradicting the claim that
it raises a fatal error on any row whose `JAN_COL` remains empty. -/
theorem c9_counterexample_validation_ignores_jan_col :
    empty_jan_col_row.jan_col = "" ∧
    ndvi_data_validation [empty_jan_col_row] = Except.ok () ∧
    validate_and_return [empty_jan_col_row] = Except.ok [empty_jan_col_row] := by
  refine ⟨rfl, rfl, rfl⟩

end BdAgro

namespace BdAgro

/-! ### Local-UTM reprojection (C7) and area computation (C10) -/

theorem utm_fold_spec (l : List CFeature) :
    ∀ acc : UtmState,
      (l.reverse.find? (fun f => f.centroidLat < 0) = none →
        l.foldl utm_step acc = acc) ∧
      (∀ g, l.reverse.find? (fun f => f.centroidLat < 0) = some g →
        (l.foldl utm_step acc).crs
            = 32700 + utm_zone_number g.centroidLat g.centroidLon ∧
        ∀ f ∈ (l.foldl utm_step acc).feats,
          f.geomCrs = 32700 + utm_zone_number g.centroidLat g.centroidLon) := by
  induction l using List.reverseRecOn with
  | nil =>
    intro acc
    constructor
    · intro _; rfl
    · intro g hg; simp at hg
  | append_singleton l f ih =>
    intro acc
    by_cases hf : f.centroidLat < 0
    · have hfind : (l ++ [f]).reverse.find? (fun x => x.centroidLat < 0) = some f := by
        rw [List.reverse_append]
        simp [List.find?_cons_of_pos, hf]
      have hfold : (l ++ [f]).foldl utm_step acc
          = gdf_to_crs (32700 + utm_zone_number f.centroidLat f.centroidLon)
              (l.foldl utm_step acc) := by
        rw [List.foldl_append]
        simp [utm_step, hf]
      constructor
      · intro h0
        rw [hfind] at h0
        cases h0
      · intro g hg
        rw [hfind] at hg
        injection hg with hg
        subst hg
        rw [hfold]
        constructor
        · rfl
        · intro x hx
          simp only [gdf_to_crs, List.mem_map] at hx
          obtain ⟨x0, _, rfl⟩ := hx
          rfl
    · have hfind : (l ++ [f]).reverse.find? (fun x => x.centroidLat < 0)
          = l.reverse.find? (fun x => x.centroidLat < 0) := by
        rw [List.reverse_append]
        simp [List.find?_cons_of_neg, hf]
      have hfold : (l ++ [f]).foldl utm_step acc = l.foldl utm_step acc := by
        rw [List.foldl_append]
        simp [utm_step, hf]
      rw [hfind, hfold]
      exact ih acc

/-- **C7 (amended).** `__reproject_to_utm` converts nothing when no feature
has a southern-hemisphere centroid; but when some feature does, each such row
triggers `to_crs` on the *whole frame*, so afterwards *every* feature —
northern-centroid ones included — is expressed in
`EPSG:32700 + zone(last southern centroid)`, and the collection carries that
single CRS. -/
theorem c7_reproject_to_utm_whole_frame (st : UtmState) :
    (last_southern st.feats = none → reproject_to_utm st = st) ∧
    (∀ g, last_southern st.feats = some g →
      (reproject_to_utm st).crs
          = 32700 + utm_zone_number g.centroidLat g.centroidLon ∧
      ∀ f ∈ (reproject_to_utm st).feats,
        f.geomCrs = 32700 + utm_zone_number g.centroidLat g.centroidLon) :=
  utm_fold_spec st.feats st

/-- **C7 counterexample.** In a mixed-hemisphere frame the northern-centroid
feature (latitude 10) is *not* left untouched: after `__reproject_to_utm` its
coordinates, like the southern one's, are expressed in EPSG:32731 — the claim
that only southern-centroid features are converted and northern ones keep
their CRS fails. -/
theorem c7_counterexample_mixed_hemisphere :
    ((c7_mixed_state.feats.map (fun f => f.centroidLat)).head? = some 10) ∧
    (c7_mixed_state.feats.map (fun f => f.geomCrs) = [4326, 4326]) ∧
    ((reproject_to_utm c7_mixed_state).feats.map (fun f => f.geomCrs)
      = [32731, 32731]) ∧
    (reproject_to_utm c7_mixed_state).crs = 32731 := by
  have hz : utm_zone_number (-10) 0 = 31 := by
    unfold utm_zone_number
    norm_num
  have h1 : ¬((10 : ℚ) < 0) := by norm_num
  have h2 : ((-10 : ℚ) < 0) := by norm_num
  refine ⟨rfl, rfl, ?_, ?_⟩ <;>
    simp [reproject_to_utm, c7_mixed_state, utm_step, gdf_to_crs, h1, h2, hz]

/-- **C10 (amended).** When every centroid is northern, the local-UTM step
performs no transform at all, so the value written into the area column is
the geometry's area in the *input* CRS's native units, divided by 10000 and
rounded to 7 decimals — not an area in a projected metric CRS.  The frame
`calculate_area` returns, however, is reprojected to EPSG:4326 by the final
geometry repair, so the returned collection does not keep the input CRS. -/
theorem c10_area_native_units (st : UtmState)
    (hnorth : ∀ f ∈ st.feats, 0 ≤ f.centroidLat) :
    reproject_to_utm st = st ∧
    (area_calculate_area st).feats.map (fun f => f.areaCalc)
      = st.feats.map (fun f => f.area.map (fun a => round7 (a / 10000))) ∧
    (area_calculate_area st).crs = 4326 := by
  have hnone : last_southern st.feats = none := by
    unfold last_southern
    rw [List.find?_eq_none]
    intro x hx
    simp only [decide_eq_true_eq]
    exact not_lt.mpr (hnorth x (List.mem_reverse.mp hx))
  have hid : reproject_to_utm st = st := (utm_fold_spec st.feats st).1 hnone
  refine ⟨hid, ?_, rfl⟩
  simp only [area_calculate_area, hid, reproject_explicit, gdf_to_crs, List.map_map]
  rfl

/-- Witness for C10 at a concrete all-northern frame in EPSG:31983. -/
theorem c10_area_native_units_witness :
    reproject_to_utm c10_native_state = c10_native_state ∧
    (area_calculate_area c10_native_state).feats.map (fun f => f.areaCalc)
      = c10_native_state.feats.map (fun f => f.area.map (fun a => round7 (a / 10000))) ∧
    (area_calculate_area c10_native_state).crs = 4326 :=
  c10_area_native_units c10_native_state (by decide)

/-- **C10 counterexample.** For an all-northern frame whose input CRS is
EPSG:31983, `Area.calculate_area` returns a collection in EPSG:4326 (the
repair step's final reprojection), so "the collection keeps its input CRS"
fails for the returned value — even though the recorded area was computed in
the input CRS's native units. -/
theorem c10_counterexample_output_crs :
    (∀ f ∈ c10_native_state.feats, 0 ≤ f.centroidLat) ∧
    c10_native_state.crs = 31983 ∧
    (area_calculate_area c10_native_state).crs = 4326 ∧
    (area_calculate_area c10_native_state).crs ≠ c10_native_state.crs := by
  refine ⟨by decide, rfl, rfl, by decide⟩

end BdAgro

namespace BdAgro

/-! ### Loader idempotence (C8) -/

/-- **C8.** Running the loader twice with identical aggregated input rows for
the same (client, season, window) unit leaves the warehouse equal to one run —
in particular the same row count: the delete step removes exactly the rows
matching `(client_id, safra, janela)` before each bulk insert, and every
inserted row carries that key. -/
theorem c8_loader_idempotent (w : List DbRow) (cid : Int) (name : String)
    (safra : Int) (janela : String) (data : List DbRow)
    (hdata : ∀ r ∈ data, r.safra = safra ∧ r.janela = janela) :
    insert_ndvi_data_into_database
        (insert_ndvi_data_into_database w cid name safra janela data)
        cid name safra janela data
      = insert_ndvi_data_into_database w cid name safra janela data ∧
    (insert_ndvi_data_into_database
        (insert_ndvi_data_into_database w cid name safra janela data)
        cid name safra janela data).length
      = (insert_ndvi_data_into_database w cid name safra janela data).length := by
  have hmain : insert_ndvi_data_into_database
      (insert_ndvi_data_into_database w cid name safra janela data)
      cid name safra janela data
      = insert_ndvi_data_into_database w cid name safra janela data := by
    unfold insert_ndvi_data_into_database delete_old_rows
    rw [List.filter_append]
    have h1 : (w.filter (fun r =>
          ¬(r.client_id = cid ∧ r.safra = safra ∧ r.janela = janela))).filter
            (fun r => ¬(r.client_id = cid ∧ r.safra = safra ∧ r.janela = janela))
        = w.filter (fun r =>
            ¬(r.client_id = cid ∧ r.safra = safra ∧ r.janela = janela)) := by
      rw [List.filter_filter]
      apply List.filter_congr
      intro a _
      by_cases h : a.client_id = cid ∧ a.safra = safra ∧ a.janela = janela <;> simp [h]
    have h2 : (data.map (fun r =>
          { r with client_id := cid, client_name := name })).filter
            (fun r => ¬(r.client_id = cid ∧ r.safra = safra ∧ r.janela = janela))
        = [] := by
      rw [List.filter_eq_nil_iff]
      intro r hr
      obtain ⟨r0, hr0, rfl⟩ := List.mem_map.mp hr
      simp [(hdata r0 hr0).1, (hdata r0 hr0).2]
    rw [h1, h2, List.append_nil]
  exact ⟨hmain, by rw [hmain]⟩

/-- Witness for C8: one aggregated row loaded twice into an empty warehouse
for unit (client 7, season 2025, window J1). -/
theorem c8_loader_idempotent_witness :
    insert_ndvi_data_into_database
        (insert_ndvi_data_into_database [] 7 "CLIENTE" 2025 "J1" [c8_sample_row])
        7 "CLIENTE" 2025 "J1" [c8_sample_row]
      = insert_ndvi_data_into_database [] 7 "CLIENTE" 2025 "J1" [c8_sample_row] ∧
    (insert_ndvi_data_into_database
        (insert_ndvi_data_into_database [] 7 "CLIENTE" 2025 "J1" [c8_sample_row])
        7 "CLIENTE" 2025 "J1" [c8_sample_row]).length
      = (insert_ndvi_data_into_database [] 7 "CLIENTE" 2025 "J1" [c8_sample_row]).length :=
  c8_loader_idempotent [] 7 "CLIENTE" 2025 "J1" [c8_sample_row] (by decide)

end BdAgro
